import Mathlib

/-!
Verification of the model-artifact resolution engine (`src/utils.py`) and the
async-to-sync streaming bridge (`src/async_test.py`) of the cog-vllm repository.

The Python code is shallowly embedded: the filesystem is a map from paths to
optional directory listings, the external downloader (`pget`) and the Hugging
Face Hub are oracles supplied as parameters, and exceptions are `Except`
values.  Each definition mirrors the corresponding Python function.
-/

namespace CogVllm

/- ### Path and URL helpers (models of `os.path` and `urllib.parse`) -/

/-- Model of `os.path.basename`: the substring after the last slash. -/
def basename (s : String) : String :=
  String.mk (s.data.foldl (fun acc c => if c = '/' then [] else acc ++ [c]) [])

/-- Splits a character list at its last dot: `some (before, after)` where the
dot itself belongs to neither part, or `none` when there is no dot. -/
def lastDotSplit : List Char → Option (List Char × List Char)
  | [] => none
  | c :: rest =>
    match lastDotSplit rest with
    | some (pre, post) => some (c :: pre, post)
    | none => if c = '.' then some ([], rest) else none

/-- Model of the first component of `os.path.splitext`: drops the extension at
the last dot, except when every character before that dot is itself a dot
(Python keeps leading-dot names such as `.bashrc` whole). -/
def splitextStem (s : String) : String :=
  match lastDotSplit s.data with
  | some (pre, _) => if pre.all (fun c => c = '.') then s else String.mk pre
  | none => s

/-- Whether a string starts with a slash. -/
def startsWithSlash (s : String) : Bool :=
  match s.data with
  | '/' :: _ => true
  | _ => false

/-- Whether a string ends with a slash. -/
def endsWithSlash (s : String) : Bool :=
  match s.data.getLast? with
  | some '/' => true
  | _ => false

/-- Model of two-argument `os.path.join` for POSIX paths. -/
def joinPath (a b : String) : String :=
  if startsWithSlash b then b
  else if a = "" then b
  else if endsWithSlash a then a ++ b
  else a ++ "/" ++ b

/-- Characters allowed after the first character of a URL scheme. -/
def isSchemeChar (c : Char) : Bool :=
  c.isAlphanum || c = '+' || c = '-' || c = '.'

/-- Splits a character list at the first colon, the colon itself dropped. -/
def splitFirstColon : List Char → Option (List Char × List Char)
  | [] => none
  | c :: rest =>
    if c = ':' then some ([], rest)
    else (splitFirstColon rest).map (fun p => (c :: p.1, p.2))

/-- A candidate scheme is valid when it is non-empty, starts with a letter and
continues with alphanumerics, `+`, `-` or `.` (as in `urllib.parse`). -/
def validScheme (cs : List Char) : Bool :=
  match cs with
  | [] => false
  | c :: rest => c.isAlpha && rest.all isSchemeChar

/-- Splits the part after `//` into the network location (up to the first
`/`, `?` or `#`) and the rest, which becomes the path. -/
def splitNetloc : List Char → List Char × List Char
  | [] => ([], [])
  | c :: rest =>
    if c = '/' ∨ c = '?' ∨ c = '#' then ([], c :: rest)
    else
      let p := splitNetloc rest
      (c :: p.1, p.2)

/-- The fields of `urllib.parse.urlparse` used by the code. -/
structure ParsedUrl where
  scheme : String
  netloc : String
  path : String
deriving DecidableEq, Repr

/-- Model of `urllib.parse.urlparse` restricted to the scheme / netloc / path
split; the code never supplies references containing queries or fragments, so
the `?` and `#` sub-splits of the path are not modelled. -/
def urlparse (s : String) : ParsedUrl :=
  let split :=
    match splitFirstColon s.data with
    | some (pre, post) =>
      if validScheme pre then (pre.map Char.toLower, post) else ([], s.data)
    | none => ([], s.data)
  match split.2 with
  | '/' :: '/' :: tail =>
    let p := splitNetloc tail
    ⟨String.mk split.1, String.mk p.1, String.mk p.2⟩
  | rest => ⟨String.mk split.1, "", String.mk rest⟩

/- ### Filesystem model -/

/-- The filesystem: a path maps to `some listing` when a directory exists
there, `none` when nothing exists there. -/
def FS : Type := String → Option (List String)

/-- Model of `os.path.exists`. -/
def os_path_exists (fs : FS) (p : String) : Bool := (fs p).isSome

/-- Model of `os.listdir` (the code only calls it behind an existence check,
so the missing-path exception is not modelled). -/
def os_listdir (fs : FS) (p : String) : List String := (fs p).getD []

/-- Replaces the directory listing at `p` with `entries`. -/
def fsWrite (fs : FS) (p : String) (entries : List String) : FS :=
  fun q => if q = p then some entries else fs q

/-- Appends `entries` to the directory listing at `p`, creating it if absent. -/
def fsAppend (fs : FS) (p : String) (entries : List String) : FS :=
  fun q => if q = p then some ((fs p).getD [] ++ entries) else fs q

/- ### Errors raised by `utils.py` -/

/-- The exceptions the resolution code can raise: the three `ValueError`s of
`resolve_model_path` (all formatted with the `E1000` class prefix) and the
`subprocess.CalledProcessError` of `check_call` in `download_tarball`. -/
inductive ResolveError where
  | pathNotFound (path : String)
  | emptyPath (path : String)
  | unsupportedScheme (scheme : String)
  | downloadFailed (exitCode : Nat)
deriving DecidableEq, Repr

/-- The message of each `ValueError` raise site, as formatted by the source;
all three share the `E1000` machine-readable class prefix. -/
def errMessage : ResolveError → String
  | .pathNotFound p => "E1000: The provided local path " ++ p ++ " does not exist."
  | .emptyPath p => "E1000: The provided local path " ++ p ++ " is empty."
  | .unsupportedScheme s => "E1000: Unsupported model path scheme: " ++ s
  | .downloadFailed _ => "CalledProcessError"

/- ### External downloader oracle (`pget`) -/

/-- Behavior of the external `pget` subprocess.  `runSingle url path` models
`pget <url> <path> -x`: the exit code and the entries left at `path` when the
process finished (partial writes on failure included).  `runMulti manifest`
models `pget multifile -` fed `manifest` on stdin: the exit code and the
entries left in the output directory. -/
structure Downloader where
  runSingle : String → String → Nat × List String
  runMulti : String → Nat × List String

/- ### download_tarball (utils.py lines 95-116) -/

/-- The deterministic cache path of `download_tarball`:
`os.path.join(os.getcwd(), "models", splitext(basename(url))[0])`. -/
def tarballPath (cwd url : String) : String :=
  joinPath (joinPath cwd "models") (splitextStem (basename url))

/-- Outcome of `download_tarball`: the returned path or raised error, the
filesystem afterwards, and how many downloader subprocesses were spawned. -/
structure TarballResult where
  result : Except ResolveError String
  fs : FS
  subprocCalls : Nat

/-- Embedding of `download_tarball`: short-circuits when the cache path exists
and is non-empty; otherwise runs `pget url path -x` via `check_call`, which
raises `CalledProcessError` on a non-zero exit. -/
def download_tarball (dl : Downloader) (cwd url : String) (fs : FS) : TarballResult :=
  let path := tarballPath cwd url
  if os_path_exists fs path && !(os_listdir fs path).isEmpty then
    ⟨.ok path, fs, 0⟩
  else
    let r := dl.runSingle url path
    let fs1 := fsWrite fs path r.2
    if r.1 ≠ 0 then ⟨.error (.downloadFailed r.1), fs1, 1⟩
    else ⟨.ok path, fs1, 1⟩

/- ### download_multi (utils.py lines 119-143) -/

/-- The fixed output directory of `download_multi`:
`os.path.join(os.getcwd(), "model")`. -/
def multiOutdir (cwd : String) : String := joinPath cwd "model"

/-- One manifest line: `"{} {}".format(url, os.path.join(outdir, os.path.basename(url)))`. -/
def manifestLine (outdir url : String) : String :=
  url ++ " " ++ joinPath outdir (basename url)

/-- Model of Python's `sep.join(parts)`. -/
def strJoin (sep : String) : List String → String
  | [] => ""
  | [x] => x
  | x :: y :: rest => x ++ sep ++ strJoin sep (y :: rest)

/-- The manifest `download_multi` writes to the downloader's stdin:
`"\n".join(...)` over one line per URL, in input order. -/
def buildManifest (outdir : String) (urls : List String) : String :=
  strJoin "\n" (urls.map (manifestLine outdir))

/-- Outcome of `download_multi`: returned directory, filesystem afterwards,
the manifest fed to the subprocess and the subprocess's exit code (which the
source ignores: `proc.communicate()` does not check the return code). -/
structure MultiResult where
  result : Except ResolveError String
  fs : FS
  manifest : String
  exitCode : Nat

/-- Embedding of `download_multi`: creates the output directory if absent,
builds the manifest, feeds it to `pget multifile -`, waits, and returns the
output directory without inspecting the exit status. -/
def download_multi (dl : Downloader) (cwd : String) (urls : List String) (fs : FS) : MultiResult :=
  let outdir := multiOutdir cwd
  let fs1 := if !(os_path_exists fs outdir) then fsWrite fs outdir [] else fs
  let manifest := buildManifest outdir urls
  let r := dl.runMulti manifest
  ⟨.ok outdir, fsAppend fs1 outdir r.2, manifest, r.1⟩

/- ### is_hf_model (utils.py lines 61-67) -/

/-- How the underlying `huggingface_hub.model_info` call can end.  An
`httpError` is a `requests.exceptions.HTTPError` (HTTP-status failures such as
not-found or bad auth); a `connectionError` is a network-level
`requests.exceptions.ConnectionError`, which is a sibling of `HTTPError`, not
a subclass; `otherError` covers any other exception. -/
inductive HubLookupOutcome where
  | success
  | httpError
  | connectionError
  | otherError
deriving DecidableEq, Repr

/-- Embedding of `is_hf_model` as a function of the lookup's outcome: the
`try` returns `True` on success, the single handler
`except requests.exceptions.HTTPError` returns `False`, and every other
exception propagates (modelled as `Except.error`). -/
def is_hf_model : HubLookupOutcome → Except HubLookupOutcome Bool
  | .success => .ok true
  | .httpError => .ok false
  | .connectionError => .error .connectionError
  | .otherError => .error .otherError

/- ### resolve_model_path (utils.py lines 16-58) -/

/-- The input of `resolve_model_path`: `str | list[str]`. -/
inductive ModelRef where
  | single (s : String)
  | multi (urls : List String)

/-- The environment of one resolution: working directory, filesystem, the Hub
probe's boolean answer (the non-raising abstraction of `is_hf_model`), the
path `snapshot_download` would return, and the downloader oracle. -/
structure Env where
  cwd : String
  fs : FS
  hubProbe : String → Bool
  hubSnapshot : String → String
  dl : Downloader

/-- Outcome of `resolve_model_path`: the returned path or raised error, the
filesystem afterwards, and whether the Hub metadata lookup (`is_hf_model`)
was invoked during resolution. -/
structure ResolveResult where
  result : Except ResolveError String
  fs : FS
  hubProbeCalled : Bool

/-- Embedding of `resolve_model_path`, branch for branch in source order:
list input, then `http`/`https`, then the `is_hf_model` probe, then the
`file`/empty-scheme local branch, then the unsupported-scheme error.  The
filesystem effect of `snapshot_download` is outside the model (its return
value is the oracle `hubSnapshot`). -/
def resolve_model_path (env : Env) : ModelRef → ResolveResult
  | .multi urls =>
    let m := download_multi env.dl env.cwd urls env.fs
    ⟨m.result, m.fs, false⟩
  | .single s =>
    let parsed := urlparse s
    if parsed.scheme = "http" ∨ parsed.scheme = "https" then
      let t := download_tarball env.dl env.cwd s env.fs
      ⟨t.result, t.fs, false⟩
    else if env.hubProbe s then
      ⟨.ok (env.hubSnapshot s), env.fs, true⟩
    else if parsed.scheme = "file" ∨ parsed.scheme = "" then
      if !(os_path_exists env.fs parsed.path) then
        ⟨.error (.pathNotFound parsed.path), env.fs, true⟩
      else if (os_listdir env.fs parsed.path).isEmpty then
        ⟨.error (.emptyPath parsed.path), env.fs, true⟩
      else
        ⟨.ok s, env.fs, true⟩
    else
      ⟨.error (.unsupportedScheme parsed.scheme), env.fs, true⟩

/- ### generate_stream (async_test.py lines 15-66) -/

/-- One step value of the engine's async generator: the request's prompt and
the `.text` field of each entry of `request_output.outputs`. -/
structure RequestOutput where
  prompt : String
  outputs : List String
deriving DecidableEq, Repr

/-- Embedding of the per-step delivery of `generate_stream` (lines 55-66):
the echo-dependent list comprehension builds `text_outputs`, which line 62
then overwrites with `request_output.outputs[-1].text`; the yielded value is
that last output's text (`none` models the `IndexError` on empty outputs). -/
def deliveredText (echo : Bool) (requestOutput : RequestOutput) : Option String :=
  let prompt := requestOutput.prompt
  let textOutputsList :=
    if echo then requestOutput.outputs.map (fun t => prompt ++ t)
    else requestOutput.outputs
  let _ := textOutputsList
  requestOutput.outputs.getLast?

/-- Embedding of the `stop_token_ids` handling of `generate_stream` (lines
27-28): `stop_token_ids = stop_token_ids or []` keeps the caller's list only
when it is truthy (non-`None` and non-empty), then `append(eos)` mutates that
list in place.  The first component is the list the function goes on to use;
the second is the caller's own list after the call (`none` when no list was
passed). -/
def stop_token_ids_after (arg : Option (List Int)) (eosTokenId : Int) :
    List Int × Option (List Int) :=
  match arg with
  | none => ([eosTokenId], none)
  | some l =>
    if l.isEmpty then ([eosTokenId], some l)
    else (l ++ [eosTokenId], some (l ++ [eosTokenId]))

/-- Calls `generate_stream` `n` times reusing the same caller-owned
`stop_token_ids` list, tracking that list across calls. -/
def reuseStopTokenIds (eosTokenId : Int) : Nat → List Int → List Int
  | 0, l => l
  | n + 1, l => reuseStopTokenIds eosTokenId n ((stop_token_ids_after (some l) eosTokenId).2.getD [])

/- ### sync_but_yield (async_test.py lines 68-95) -/

/-- Model of `gen.__anext__()` on an async generator modelled by the list of
values it has yet to yield: `none` is `StopAsyncIteration`. -/
def anext {α : Type} : List α → Option (α × List α)
  | [] => none
  | v :: rest => some (v, rest)

/-- Embedding of `sync_but_yield`'s while-loop: each pull runs the event loop
until the underlying generator yields (`run_until_complete(gen.__anext__())`),
yields that value, and stops at `StopAsyncIteration`.  The result is the list
of values the blocking iterator delivers, in order. -/
def sync_but_yield {α : Type} (gen : List α) : List α :=
  match h : anext gen with
  | none => []
  | some (v, rest) => v :: sync_but_yield rest
termination_by gen.length
decreasing_by
  cases gen with
  | nil => simp [anext] at h
  | cons a l =>
    simp [anext] at h
    simp [h.2]

/- ### Concrete fixtures for counterexamples and witnesses -/

/-- A downloader that succeeds and leaves one file behind. -/
def dlOk : Downloader := ⟨fun _ _ => (0, ["weights.bin"]), fun _ => (0, ["weights.bin"])⟩

/-- A downloader whose subprocess exits with status 1, leaving nothing. -/
def dlFail : Downloader := ⟨fun _ _ => (1, []), fun _ => (1, [])⟩

/-- A filesystem holding exactly one non-empty directory at `/m`. -/
def fsM : FS := fun p => if p = "/m" then some ["weights.bin"] else none

/-- The empty filesystem. -/
def fsEmpty : FS := fun _ => none

/-- An environment with `/m` mounted non-empty and a Hub probe answering
false for every name. -/
def envM : Env := ⟨"", fsM, fun _ => false, fun s => s, dlOk⟩

/- ### Shared helper lemmas -/

/-- On the local branch (scheme `file` or empty, Hub probe negative),
`resolve_model_path` reduces to the existence / non-emptiness checks. -/
theorem resolve_single_local (env : Env) (s : String)
    (hs : (urlparse s).scheme = "file" ∨ (urlparse s).scheme = "")
    (hp : env.hubProbe s = false) :
    resolve_model_path env (.single s) =
      if !(os_path_exists env.fs (urlparse s).path) then
        ⟨.error (.pathNotFound (urlparse s).path), env.fs, true⟩
      else if (os_listdir env.fs (urlparse s).path).isEmpty then
        ⟨.error (.emptyPath (urlparse s).path), env.fs, true⟩
      else ⟨.ok s, env.fs, true⟩ := by
  have hnh : ¬((urlparse s).scheme = "http" ∨ (urlparse s).scheme = "https") := by
    rcases hs with h | h <;> rw [h] <;> decide
  simp only [resolve_model_path]
  rw [if_neg hnh, if_neg (by simp [hp]), if_pos hs]

/-- A non-empty cache directory makes `download_tarball` short-circuit. -/
theorem download_tarball_cached (dl : Downloader) (cwd url : String) (fs2 : FS)
    (h2 : (os_listdir fs2 (tarballPath cwd url)).isEmpty = false) :
    download_tarball dl cwd url fs2 = ⟨.ok (tarballPath cwd url), fs2, 0⟩ := by
  have hex : os_path_exists fs2 (tarballPath cwd url) = true := by
    unfold os_path_exists
    unfold os_listdir at h2
    cases hc : fs2 (tarballPath cwd url) with
    | none => rw [hc] at h2; simp at h2
    | some l => simp
  simp only [download_tarball]
  rw [if_pos (by simp [hex, h2])]

/-- Reusing the caller's `stop_token_ids` list across `n` calls appends one
end-of-sequence id per call. -/
theorem reuseStopTokenIds_eq (eosTokenId : Int) (n : Nat) :
    ∀ l : List Int, l ≠ [] →
      reuseStopTokenIds eosTokenId n l = l ++ List.replicate n eosTokenId := by
  induction n with
  | zero => intro l _; simp [reuseStopTokenIds]
  | succ n ih =>
    intro l h
    have hne : l.isEmpty = false := by
      cases l with
      | nil => exact absurd rfl h
      | cons a t => rfl
    simp only [reuseStopTokenIds, stop_token_ids_after, hne]
    rw [if_neg (by simp), Option.getD_some, ih (l ++ [eosTokenId]) (by simp)]
    simp [List.replicate_succ]

/- ### Claim theorems -/

/-- C2 counterexample: a network-level connection error is not caught by the
`except requests.exceptions.HTTPError` handler, so `is_hf_model` raises
instead of returning false. -/
theorem C2_counterexample :
    is_hf_model .connectionError = .error .connectionError ∧
    is_hf_model .connectionError ≠ .ok false :=
  ⟨rfl, fun h => Except.noConfusion h⟩

/-- C2 (amended): `is_hf_model` returns true exactly when the Hub lookup
succeeds and false exactly when the lookup fails with an HTTP-status error
(not-found, auth error); any other failure of the lookup — such as a
network-level connection error — propagates out of the function. -/
theorem C2_probe_catches_only_http (o : HubLookupOutcome) :
    (is_hf_model o = .ok true ↔ o = .success) ∧
    (is_hf_model o = .ok false ↔ o = .httpError) ∧
    ((is_hf_model o).isOk = false ↔ (o = .connectionError ∨ o = .otherError)) := by
  cases o <;> simp [is_hf_model, Except.isOk, Except.toBool]

/-- C5 counterexample: with echo set, the delivered increment for prompt `P`
and sole engine output `x` is `x`, not `Px` — the prompt is not prefixed. -/
theorem C5_counterexample :
    deliveredText true ⟨"P", ["x"]⟩ = some "x" ∧
    deliveredText true ⟨"P", ["x"]⟩ ≠ some ("P" ++ "x") := by
  exact ⟨rfl, by decide⟩

/-- C5 (amended): the echo flag has no effect on the delivered increment; the
prompt-prefixed list is computed but immediately overwritten by line 62, so
every delivered value is the last output's text without the prompt,
regardless of echo. -/
theorem C5_echo_has_no_effect (echo : Bool) (requestOutput : RequestOutput) :
    deliveredText echo requestOutput = deliveredText false requestOutput ∧
    deliveredText echo requestOutput = requestOutput.outputs.getLast? := by
  cases echo <;> simp [deliveredText]

/-- C7 counterexample: the manifest for the spec's two-URL example is the two
lines joined by a single newline with no trailing newline, so it differs from
the newline-terminated buffer the claim describes. -/
theorem C7_counterexample :
    buildManifest "D" ["http://h/a.bin", "http://h/b.bin"] =
      "http://h/a.bin D/a.bin" ++ "\n" ++ "http://h/b.bin D/b.bin" ∧
    buildManifest "D" ["http://h/a.bin", "http://h/b.bin"] ≠
      "http://h/a.bin D/a.bin" ++ "\n" ++ "http://h/b.bin D/b.bin" ++ "\n" := by
  exact ⟨by decide, by decide⟩

/-- C7 (amended): the manifest consists of one `url output_dir/basename(url)`
pair per input URL, in input order, with consecutive lines separated by a
newline and no trailing newline after the final line. -/
theorem C7_manifest_format (outdir u : String) (urls : List String) :
    buildManifest outdir [] = "" ∧
    buildManifest outdir (u :: urls) =
      manifestLine outdir u ++
        (if urls.isEmpty then "" else "\n" ++ buildManifest outdir urls) ∧
    manifestLine outdir u = u ++ " " ++ joinPath outdir (basename u) := by
  refine ⟨rfl, ?_, rfl⟩
  cases urls with
  | nil => simp [buildManifest, strJoin]
  | cons v rest => simp [buildManifest, strJoin, String.append_assoc]

/-- C9: the blocking iterator of `sync_but_yield` delivers exactly the values
the underlying async generator yields, in order, and terminates normally when
the generator completes; in particular the engine stream
`He, Hello, Hello!` is delivered as exactly those three values. -/
theorem C9_bridge_preserves_stream (gen : List String) :
    sync_but_yield gen = gen := by
  induction gen with
  | nil => simp [sync_but_yield, anext]
  | cons v rest ih => simp [sync_but_yield, anext, ih]

/-- C10: passing a non-empty caller-owned `stop_token_ids` list makes
`generate_stream` append the tokenizer's end-of-sequence id to that same list
in place, and reusing the list across `n` calls accumulates `n` additional
end-of-sequence entries. -/
theorem C10_stop_token_ids_mutation (l : List Int) (eosTokenId : Int) (n : Nat)
    (h : l ≠ []) :
    (stop_token_ids_after (some l) eosTokenId).2 = some (l ++ [eosTokenId]) ∧
    reuseStopTokenIds eosTokenId n l = l ++ List.replicate n eosTokenId := by
  have hne : l.isEmpty = false := by
    cases l with
    | nil => exact absurd rfl h
    | cons a t => rfl
  exact ⟨by simp [stop_token_ids_after, hne], reuseStopTokenIds_eq eosTokenId n l h⟩

/-- C10 witness: at `stop_token_ids = [5]`, eos id 7 and two calls, the
caller's list becomes `[5, 7]` after one call and `[5, 7, 7]` after two. -/
theorem C10_witness :
    ([5] : List Int) ≠ [] ∧
    ((stop_token_ids_after (some [5]) 7).2 = some ([5] ++ [7]) ∧
     reuseStopTokenIds 7 2 [5] = [5] ++ List.replicate 2 7) :=
  ⟨by decide, C10_stop_token_ids_mutation [5] 7 2 (by decide)⟩

/-- C1 counterexample: for the bare path `/m`, which names an existing
non-empty directory, resolution still invokes the Hub metadata lookup
(`is_hf_model`) before the local branch — the probe is not skipped. -/
theorem C1_counterexample :
    (resolve_model_path envM (.single "/m")).hubProbeCalled = true ∧
    (resolve_model_path envM (.single "/m")).result = .ok "/m" :=
  ⟨rfl, rfl⟩

/-- C1 (amended): the HTTP(S) branch is checked before the Hub Probe, but the
local-path branch is checked after it: for a bare path or `file://` reference
to an existing non-empty directory, `is_hf_model` is invoked, and the local
branch returns the input only when the probe answers false; on an HTTP(S)
input the probe is never invoked. -/
theorem C1_dispatch_order (env : Env) (s u : String)
    (hs : (urlparse s).scheme = "file" ∨ (urlparse s).scheme = "")
    (hp : env.hubProbe s = false)
    (hex : os_path_exists env.fs (urlparse s).path = true)
    (hne : (os_listdir env.fs (urlparse s).path).isEmpty = false)
    (hu : (urlparse u).scheme = "http" ∨ (urlparse u).scheme = "https") :
    (resolve_model_path env (.single s)).hubProbeCalled = true ∧
    (resolve_model_path env (.single s)).result = .ok s ∧
    (resolve_model_path env (.single u)).hubProbeCalled = false := by
  refine ⟨?_, ?_, ?_⟩
  · rw [resolve_single_local env s hs hp]
    simp [hex, hne]
  · rw [resolve_single_local env s hs hp]
    simp [hex, hne]
  · simp only [resolve_model_path]
    rw [if_pos hu]

/-- C1 witness: the amended dispatch-order theorem applied at the mounted
directory `/m` and the URL `https://h/a.tar`. -/
theorem C1_witness :
    (((urlparse "/m").scheme = "file" ∨ (urlparse "/m").scheme = "") ∧
     envM.hubProbe "/m" = false ∧
     os_path_exists envM.fs (urlparse "/m").path = true ∧
     (os_listdir envM.fs (urlparse "/m").path).isEmpty = false ∧
     ((urlparse "https://h/a.tar").scheme = "http" ∨
      (urlparse "https://h/a.tar").scheme = "https")) ∧
    ((resolve_model_path envM (.single "/m")).hubProbeCalled = true ∧
     (resolve_model_path envM (.single "/m")).result = .ok "/m" ∧
     (resolve_model_path envM (.single "https://h/a.tar")).hubProbeCalled = false) :=
  ⟨⟨by decide, rfl, by decide, by decide, by decide⟩,
   C1_dispatch_order envM "/m" "https://h/a.tar" (by decide) rfl (by decide)
     (by decide) (by decide)⟩

/-- C3 counterexample: in manifest mode the downloader subprocess exits with
status 1, yet `download_multi` returns the output directory instead of
raising a download failure. -/
theorem C3_counterexample :
    (download_multi dlFail "" ["http://h/a.bin"] fsEmpty).exitCode = 1 ∧
    (download_multi dlFail "" ["http://h/a.bin"] fsEmpty).result = .ok "model" :=
  ⟨rfl, rfl⟩

/-- C3 (amended): in single-archive mode a non-zero subprocess exit raises a
download-failure error (so no path is returned), but in manifest mode
`download_multi` never checks the exit status and returns the output
directory regardless. -/
theorem C3_subprocess_exit_handling (dl : Downloader) (cwd url : String)
    (fs : FS) (urls : List String)
    (hmiss : (os_path_exists fs (tarballPath cwd url) &&
      !(os_listdir fs (tarballPath cwd url)).isEmpty) = false)
    (hfail : (dl.runSingle url (tarballPath cwd url)).1 ≠ 0) :
    (download_tarball dl cwd url fs).result =
      .error (.downloadFailed (dl.runSingle url (tarballPath cwd url)).1) ∧
    (download_multi dl cwd urls fs).result = .ok (multiOutdir cwd) := by
  constructor
  · simp only [download_tarball]
    rw [if_neg (by simp [hmiss]), if_pos hfail]
  · simp [download_multi]

/-- C3 witness: the exit-handling theorem applied at a downloader whose
subprocess exits with status 1 and an empty cache. -/
theorem C3_witness :
    ((os_path_exists fsEmpty (tarballPath "" "http://h/y.tar") &&
        !(os_listdir fsEmpty (tarballPath "" "http://h/y.tar")).isEmpty) = false ∧
     (dlFail.runSingle "http://h/y.tar" (tarballPath "" "http://h/y.tar")).1 ≠ 0) ∧
    ((download_tarball dlFail "" "http://h/y.tar" fsEmpty).result =
       .error (.downloadFailed
         (dlFail.runSingle "http://h/y.tar" (tarballPath "" "http://h/y.tar")).1) ∧
     (download_multi dlFail "" ["u"] fsEmpty).result = .ok (multiOutdir "")) :=
  ⟨⟨by decide, by decide⟩,
   C3_subprocess_exit_handling dlFail "" "http://h/y.tar" fsEmpty ["u"]
     (by decide) (by decide)⟩

/-- C4 counterexample: on the `file://` branch resolution returns the
original string `file:///m`, and no directory exists at that string on the
post-resolution filesystem — the returned value is not a filesystem path to
an existing directory (the validated path is `/m`, without the scheme). -/
theorem C4_counterexample :
    (resolve_model_path envM (.single "file:///m")).result = .ok "file:///m" ∧
    os_path_exists (resolve_model_path envM (.single "file:///m")).fs
      "file:///m" = false :=
  ⟨rfl, rfl⟩

/-- C4 (amended): on the bare-path branch the returned string is a path to an
existing non-empty directory; on the `file://` branch the URL's path
component is validated to exist and be non-empty, but the returned string is
the original scheme-prefixed input; on the multi-URL branch the returned
directory exists but is not guaranteed non-empty. -/
theorem C4_return_guarantees (env : Env) (s t : String) (urls : List String)
    (hsB : (urlparse s).scheme = "")
    (hsP : (urlparse s).path = s)
    (hpB : env.hubProbe s = false)
    (hexB : os_path_exists env.fs s = true)
    (hneB : (os_listdir env.fs s).isEmpty = false)
    (htF : (urlparse t).scheme = "file")
    (hpF : env.hubProbe t = false)
    (hexF : os_path_exists env.fs (urlparse t).path = true)
    (hneF : (os_listdir env.fs (urlparse t).path).isEmpty = false) :
    ((resolve_model_path env (.single s)).result = .ok s ∧
      os_path_exists (resolve_model_path env (.single s)).fs s = true ∧
      (os_listdir (resolve_model_path env (.single s)).fs s).isEmpty = false) ∧
    ((resolve_model_path env (.single t)).result = .ok t ∧
      os_path_exists (resolve_model_path env (.single t)).fs
        (urlparse t).path = true) ∧
    ((resolve_model_path env (.multi urls)).result = .ok (multiOutdir env.cwd) ∧
      os_path_exists (resolve_model_path env (.multi urls)).fs
        (multiOutdir env.cwd) = true) := by
  refine ⟨?_, ?_, ?_⟩
  · rw [resolve_single_local env s (Or.inr hsB) hpB]
    rw [hsP] at *
    simp [hexB, hneB]
  · rw [resolve_single_local env t (Or.inl htF) hpF]
    simp [hexF, hneF]
  · constructor
    · simp [resolve_model_path, download_multi]
    · simp [resolve_model_path, download_multi, fsAppend, os_path_exists]

/-- C4 witness: the amended return-guarantee theorem applied at the mounted
directory `/m`, the reference `file:///m` and the empty URL list. -/
theorem C4_witness :
    ((urlparse "/m").scheme = "" ∧
     (urlparse "/m").path = "/m" ∧
     envM.hubProbe "/m" = false ∧
     os_path_exists envM.fs "/m" = true ∧
     (os_listdir envM.fs "/m").isEmpty = false ∧
     (urlparse "file:///m").scheme = "file" ∧
     envM.hubProbe "file:///m" = false ∧
     os_path_exists envM.fs (urlparse "file:///m").path = true ∧
     (os_listdir envM.fs (urlparse "file:///m").path).isEmpty = false) ∧
    (((resolve_model_path envM (.single "/m")).result = .ok "/m" ∧
      os_path_exists (resolve_model_path envM (.single "/m")).fs "/m" = true ∧
      (os_listdir (resolve_model_path envM (.single "/m")).fs "/m").isEmpty = false) ∧
     ((resolve_model_path envM (.single "file:///m")).result = .ok "file:///m" ∧
      os_path_exists (resolve_model_path envM (.single "file:///m")).fs
        (urlparse "file:///m").path = true) ∧
     ((resolve_model_path envM (.multi [])).result = .ok (multiOutdir envM.cwd) ∧
      os_path_exists (resolve_model_path envM (.multi [])).fs
        (multiOutdir envM.cwd) = true)) :=
  ⟨⟨by decide, by decide, rfl, by decide, by decide, by decide, rfl,
    by decide, by decide⟩,
   C4_return_guarantees envM "/m" "file:///m" [] (by decide) (by decide) rfl
     (by decide) (by decide) (by decide) rfl (by decide) (by decide)⟩

/-- C6: calling `download_tarball` twice with the same URL invokes the
downloader subprocess at most once in total, provided the cache directory is
non-empty after the first call; the second call spawns no subprocess and
returns the same path the first call returned. -/
theorem C6_tarball_idempotent (dl : Downloader) (cwd url : String) (fs : FS)
    (hne : (os_listdir (download_tarball dl cwd url fs).fs
      (tarballPath cwd url)).isEmpty = false) :
    (download_tarball dl cwd url (download_tarball dl cwd url fs).fs).subprocCalls = 0 ∧
    (download_tarball dl cwd url (download_tarball dl cwd url fs).fs).result =
      .ok (tarballPath cwd url) ∧
    (download_tarball dl cwd url fs).subprocCalls +
      (download_tarball dl cwd url (download_tarball dl cwd url fs).fs).subprocCalls ≤ 1 ∧
    (∀ p, (download_tarball dl cwd url fs).result = .ok p →
      (download_tarball dl cwd url (download_tarball dl cwd url fs).fs).result = .ok p) := by
  rw [download_tarball_cached dl cwd url _ hne]
  have hcalls : (download_tarball dl cwd url fs).subprocCalls ≤ 1 := by
    simp only [download_tarball]
    split
    · simp
    · split <;> simp
  refine ⟨rfl, rfl, by simpa using hcalls, ?_⟩
  intro p hp1
  have hpeq : p = tarballPath cwd url := by
    revert hp1
    simp only [download_tarball]
    split
    · intro hp1
      simp only [Except.ok.injEq] at hp1
      exact hp1.symm
    · split
      · intro hp1
        exact absurd hp1 (fun hcontra => Except.noConfusion hcontra)
      · intro hp1
        simp only [Except.ok.injEq] at hp1
        exact hp1.symm
  rw [hpeq]

/-- C6 witness: the idempotence theorem applied at a succeeding downloader
and an initially empty cache: the first call downloads, the second
short-circuits. -/
theorem C6_witness :
    (os_listdir (download_tarball dlOk "" "http://h/y.tar" fsEmpty).fs
      (tarballPath "" "http://h/y.tar")).isEmpty = false ∧
    ((download_tarball dlOk "" "http://h/y.tar"
        (download_tarball dlOk "" "http://h/y.tar" fsEmpty).fs).subprocCalls = 0 ∧
     (download_tarball dlOk "" "http://h/y.tar"
        (download_tarball dlOk "" "http://h/y.tar" fsEmpty).fs).result =
       .ok (tarballPath "" "http://h/y.tar") ∧
     (download_tarball dlOk "" "http://h/y.tar" fsEmpty).subprocCalls +
       (download_tarball dlOk "" "http://h/y.tar"
         (download_tarball dlOk "" "http://h/y.tar" fsEmpty).fs).subprocCalls ≤ 1 ∧
     (∀ p, (download_tarball dlOk "" "http://h/y.tar" fsEmpty).result = .ok p →
       (download_tarball dlOk "" "http://h/y.tar"
         (download_tarball dlOk "" "http://h/y.tar" fsEmpty).fs).result = .ok p)) :=
  ⟨by decide, C6_tarball_idempotent dlOk "" "http://h/y.tar" fsEmpty (by decide)⟩

/-- C8: on the local-path branch (scheme `file` or empty, Hub probe
negative), resolution succeeds exactly when the parsed path exists with a
non-empty listing; a missing path raises the does-not-exist `ValueError` and
an existing empty path raises the is-empty `ValueError`. -/
theorem C8_local_branch (env : Env) (s : String)
    (hs : (urlparse s).scheme = "file" ∨ (urlparse s).scheme = "")
    (hp : env.hubProbe s = false) :
    (os_path_exists env.fs (urlparse s).path = false →
      (resolve_model_path env (.single s)).result =
        .error (.pathNotFound (urlparse s).path)) ∧
    (os_path_exists env.fs (urlparse s).path = true →
      (os_listdir env.fs (urlparse s).path).isEmpty = true →
      (resolve_model_path env (.single s)).result =
        .error (.emptyPath (urlparse s).path)) ∧
    ((resolve_model_path env (.single s)).result = .ok s ↔
      os_path_exists env.fs (urlparse s).path = true ∧
      (os_listdir env.fs (urlparse s).path).isEmpty = false) := by
  rw [resolve_single_local env s hs hp]
  cases hex : os_path_exists env.fs (urlparse s).path <;>
    cases hemp : (os_listdir env.fs (urlparse s).path).isEmpty <;>
      simp [hex, hemp]

/-- C8 witness: the local-branch characterization applied at the mounted
non-empty directory `/m`. -/
theorem C8_witness :
    (((urlparse "/m").scheme = "file" ∨ (urlparse "/m").scheme = "") ∧
     envM.hubProbe "/m" = false) ∧
    ((os_path_exists envM.fs (urlparse "/m").path = false →
      (resolve_model_path envM (.single "/m")).result =
        .error (.pathNotFound (urlparse "/m").path)) ∧
     (os_path_exists envM.fs (urlparse "/m").path = true →
      (os_listdir envM.fs (urlparse "/m").path).isEmpty = true →
      (resolve_model_path envM (.single "/m")).result =
        .error (.emptyPath (urlparse "/m").path)) ∧
     ((resolve_model_path envM (.single "/m")).result = .ok "/m" ↔
      os_path_exists envM.fs (urlparse "/m").path = true ∧
      (os_listdir envM.fs (urlparse "/m").path).isEmpty = false)) :=
  ⟨⟨by decide, rfl⟩, C8_local_branch envM "/m" (by decide) rfl⟩

end CogVllm
